import Mathlib

/-!
Verification of the Subscription Monitor Engine implemented in `src/main.py`
(a Telegram bot that polls a Twitter API for a user's latest tweet and relays
new, keyword-matching tweets to a chat).

The embedding below translates the monitoring-relevant Python functions into
Lean, keeping the source's names where possible:

* `PyVal` models the JSON-like Python values flowing through the program,
  together with Python truthiness (`PyVal.truthy`), Python structural equality
  on those values (`pyEq`; note that Python compares dicts by key set, which
  coincides with the entry-list comparison used here for the unique-keyed,
  order-preserving dicts produced by JSON decoding), and Python subscripting
  (`PyVal.getKey` for `v['k']`, `PyVal.getIdx` for `v[i]`), which either
  produces a value or raises `KeyError` / `IndexError` / `TypeError`.
* `get_tweet_text` / `get_tweet_id` model the extraction helpers: they walk
  the fixed nested path and catch only `KeyError` and `IndexError`
  (returning Python `None`); a `TypeError` raised when a non-dict value is
  subscripted with a string key propagates to the caller.
* `monitorStep` models one iteration of the `monitor_tweets` while-loop body
  (lines 106-141): the fetch outcome is passed in, and the iteration either
  sends nothing (`StepOut.silent`), sends a tweet notification
  (`StepOut.notified`), or catches an escaping exception and sends the
  diagnostic error message (`StepOut.diagnostic`).  `monitorRun` iterates it.
* `receive_keywords` models the registry effect of the start handler
  (`monitor_flags[(chat, user)] = stop_event`), `receive_stop_one` and
  `receive_stop_all` the two branches of the stop handler.  The registry is
  an association list with the dict's insertion order; stop events are
  identified by numeric ids and "signaling" an event is recorded by
  returning its id.
* `workerStopTime` models the shutdown timing of the poll loop: the stop
  flag is checked only at the top of each iteration (`while not
  stop_event.is_set()`), the body is instantaneous in this timing model, and
  `time.sleep(5)` unconditionally advances the clock by 5 units (a plain
  sleep, not an `Event.wait`, so a flag set mid-sleep is only observed at
  the next iteration top).

String operations are modelled on the ASCII fragment exercised by the
program (`Char.toLower` lowers ASCII letters, `wordChar` is the ASCII
reading of the regex class `\w`), which agrees with Python on every string
appearing in the claims.
-/

namespace TweetMonitor

/-- JSON-like Python values (`response.json()` output and its parts). -/
inductive PyVal where
  | none
  | bool (b : Bool)
  | num (n : Int)
  | str (s : String)
  | list (items : List PyVal)
  | dict (entries : List (String × PyVal))

/-- Python truthiness of a value (`if tweets_data:`, `if tweet_text and tweet_id`). -/
def PyVal.truthy : PyVal → Bool
  | PyVal.none => false
  | PyVal.bool b => b
  | PyVal.num n => n != 0
  | PyVal.str s => s != ""
  | PyVal.list items => !items.isEmpty
  | PyVal.dict entries => !entries.isEmpty

mutual

/-- Python `==` / `!=` on JSON values (`tweet_id != latest_tweet_id`). -/
def pyEq : PyVal → PyVal → Bool
  | PyVal.none, PyVal.none => true
  | PyVal.bool a, PyVal.bool b => a == b
  | PyVal.num a, PyVal.num b => a == b
  | PyVal.str a, PyVal.str b => a == b
  | PyVal.list a, PyVal.list b => pyEqList a b
  | PyVal.dict a, PyVal.dict b => pyEqDict a b
  | _, _ => false

def pyEqList : List PyVal → List PyVal → Bool
  | [], [] => true
  | a :: as, b :: bs => pyEq a b && pyEqList as bs
  | _, _ => false

def pyEqDict : List (String × PyVal) → List (String × PyVal) → Bool
  | [], [] => true
  | (ka, va) :: as, (kb, vb) :: bs => ka == kb && pyEq va vb && pyEqDict as bs
  | _, _ => false

end

/-- Errors that Python subscripting can raise along the extraction path. -/
inductive PyErr where
  | keyError
  | indexError
  | typeError
deriving DecidableEq

/-- Lookup in a Python dict's entry list. -/
def dictGet : List (String × PyVal) → String → Except PyErr PyVal
  | [], _ => Except.error PyErr.keyError
  | (k2, v) :: rest, k => if k2 = k then Except.ok v else dictGet rest k

/-- Python `v['k']`: a dict yields the value or `KeyError`; every other value
raises `TypeError` when subscripted with a string. -/
def PyVal.getKey : PyVal → String → Except PyErr PyVal
  | PyVal.dict es, k => dictGet es k
  | _, _ => Except.error PyErr.typeError

/-- Python `v[i]` for a non-negative integer index: list indexing yields the
element or `IndexError`; string indexing yields a one-character string or
`IndexError`; a dict raises `KeyError` (the integer is not among its string
keys); everything else raises `TypeError`. -/
def PyVal.getIdx : PyVal → Nat → Except PyErr PyVal
  | PyVal.list xs, i =>
      match xs[i]? with
      | some v => Except.ok v
      | Option.none => Except.error PyErr.indexError
  | PyVal.str s, i =>
      match s.data[i]? with
      | some c => Except.ok (PyVal.str (String.mk [c]))
      | Option.none => Except.error PyErr.indexError
  | PyVal.dict _, _ => Except.error PyErr.keyError
  | _, _ => Except.error PyErr.typeError

/-- The shared nested path `['result']['timeline']['instructions'][1]
['entries'][0]['content']['itemContent']['tweet_results']['result']['legacy']`
walked by both extraction helpers. -/
def legacyPath (d : PyVal) : Except PyErr PyVal := do
  let a ← d.getKey "result"
  let b ← a.getKey "timeline"
  let c ← b.getKey "instructions"
  let e ← c.getIdx 1
  let f ← e.getKey "entries"
  let g ← f.getIdx 0
  let h1 ← g.getKey "content"
  let h2 ← h1.getKey "itemContent"
  let h3 ← h2.getKey "tweet_results"
  let h4 ← h3.getKey "result"
  h4.getKey "legacy"

/-- One field read off the end of the shared path. -/
def tweetField (d : PyVal) (fld : String) : Except PyErr PyVal :=
  match legacyPath d with
  | Except.error e => Except.error e
  | Except.ok leg => leg.getKey fld

/-- The `except (KeyError, IndexError): return None` clause of the extraction
helpers: those two errors become Python `None`, anything else propagates. -/
def catchKI : Except PyErr PyVal → Except PyErr PyVal
  | Except.ok v => Except.ok v
  | Except.error PyErr.keyError => Except.ok PyVal.none
  | Except.error PyErr.indexError => Except.ok PyVal.none
  | Except.error PyErr.typeError => Except.error PyErr.typeError

/-- `get_tweet_text` from `src/main.py` (lines 50-56). -/
def get_tweet_text (d : PyVal) : Except PyErr PyVal :=
  catchKI (tweetField d "full_text")

/-- `get_tweet_id` from `src/main.py` (lines 58-64). -/
def get_tweet_id (d : PyVal) : Except PyErr PyVal :=
  catchKI (tweetField d "id_str")

/-- Boolean list-prefix test (Python `str.startswith` on character lists). -/
def isPrefixB : List Char → List Char → Bool
  | [], _ => true
  | _ :: _, [] => false
  | a :: as, b :: bs => a == b && isPrefixB as bs

/-- Boolean substring test: Python's `needle in haystack` on strings. -/
def isInfixB (needle : List Char) : List Char → Bool
  | [] => needle.isEmpty
  | b :: bs => isPrefixB needle (b :: bs) || isInfixB needle bs

/-- Python `text.startswith(pre)`. -/
def startswith (pre s : String) : Bool :=
  isPrefixB pre.data s.data

/-- Line 120: `retweet_flag = tweet_text.startswith("RT ")`. -/
def retweetFlag (t : String) : Bool :=
  startswith "RT " t

/-- ASCII reading of the regex character class `\w` (word character). -/
def wordChar (c : Char) : Bool :=
  c.isAlphanum || c == '_'

/-- Scanner for `re.findall(r"#\w+", text)`.  The second argument is the
match in progress: `none` while outside a candidate match, `some acc` after a
hash sign with `acc` the word characters read so far (reversed).  A maximal
non-empty run of word characters after a hash sign is emitted as one match;
a hash sign followed by no word character matches nothing, and the scan
resumes at the character after it, exactly as the regex engine does. -/
def findTagsGo : List Char → Option (List Char) → List String
  | [], Option.none => []
  | [], some acc => if acc.isEmpty then [] else [String.mk ('#' :: acc.reverse)]
  | c :: rest, Option.none =>
      if c = '#' then findTagsGo rest (some []) else findTagsGo rest Option.none
  | c :: rest, some acc =>
      if wordChar c then findTagsGo rest (some (c :: acc))
      else if acc.isEmpty then
        (if c = '#' then findTagsGo rest (some []) else findTagsGo rest Option.none)
      else
        String.mk ('#' :: acc.reverse) ::
          (if c = '#' then findTagsGo rest (some []) else findTagsGo rest Option.none)

/-- Line 122: `re.findall(r"#\w+", tweet_text)` — every non-overlapping match
of a hash sign followed by a maximal non-empty run of word characters, in
order of first appearance, duplicates kept. -/
def findTags (l : List Char) : List String :=
  findTagsGo l Option.none

/-- Python `str.lower()` on the ASCII fragment, at the character-list level. -/
def lowerChars (l : List Char) : List Char :=
  l.map Char.toLower

/-- Line 114: `any(keyword.lower() in tweet_text.lower() for keyword in keywords)`. -/
def kwMatch (kws : List String) (t : String) : Bool :=
  kws.any (fun kw => isInfixB (lowerChars kw.data) (lowerChars t.data))

/-- An item passes the keyword filter when the keyword list is empty
(`if keywords:` falls through) or some keyword matches case-insensitively. -/
def keywordPass (kws : List String) (t : String) : Bool :=
  kws.isEmpty || kwMatch kws t

/-- The content of one outbound notification (lines 125-134); the wall-clock
timestamp and the strings derived verbatim from these fields are elided. -/
structure TweetMsg where
  tweetId : PyVal
  retweet : Bool
  hashtags : List String
  text : String

/-- Message built for tweet text `t` with id `tid` (lines 119-134). -/
def mkMsg (t tid : String) : TweetMsg :=
  { tweetId := PyVal.str tid
    retweet := retweetFlag t
    hashtags := findTags t.data
    text := t }

/-- What one loop iteration sends through the Telegram sink: nothing, a tweet
notification, or the caught-exception diagnostic (lines 137-141). -/
inductive StepOut where
  | silent
  | notified (m : TweetMsg)
  | diagnostic

/-- Outcome of `get_user_tweets` (lines 72-85): the function catches every
`requests` exception, logs it and returns Python `None` (`fetchError`);
otherwise it hands back the decoded JSON payload. -/
inductive FetchOutcome where
  | fetchError
  | payload (d : PyVal)

/-- One iteration of the `monitor_tweets` while-loop body (lines 106-141),
given the fetch outcome for this round.  Returns the new `latest_tweet_id`
and what was sent.  Control flow mirrors the source: a falsy payload or a
fetch error falls through to the sleep; the line-111 guard requires truthy
text and id and a changed id; a non-empty keyword list with no match skips
via `continue` before `latest_tweet_id` is updated; otherwise the marker is
updated and the message sent.  An exception escaping the body (in this model:
a `TypeError` from extraction, or calling the string methods `lower` /
`startswith` on a truthy non-string text, which in the keyword-free path
happens only after line 118 already updated the marker) is caught by the
`except Exception` clause, which sends the diagnostic. -/
def monitorStep (kws : List String) (latest : Option PyVal) (fetched : FetchOutcome) :
    Option PyVal × StepOut :=
  match fetched with
  | FetchOutcome.fetchError => (latest, StepOut.silent)
  | FetchOutcome.payload d =>
      if d.truthy then
        match get_tweet_text d with
        | Except.error _ => (latest, StepOut.diagnostic)
        | Except.ok tv =>
            match get_tweet_id d with
            | Except.error _ => (latest, StepOut.diagnostic)
            | Except.ok iv =>
                if tv.truthy && iv.truthy &&
                    (match latest with
                     | Option.none => true
                     | some x => !(pyEq iv x)) then
                  match tv with
                  | PyVal.str t =>
                      if kws.isEmpty then
                        (some iv, StepOut.notified
                          { tweetId := iv, retweet := retweetFlag t,
                            hashtags := findTags t.data, text := t })
                      else if kwMatch kws t then
                        (some iv, StepOut.notified
                          { tweetId := iv, retweet := retweetFlag t,
                            hashtags := findTags t.data, text := t })
                      else
                        (latest, StepOut.silent)
                  | _ =>
                      if kws.isEmpty then (some iv, StepOut.diagnostic)
                      else (latest, StepOut.diagnostic)
                else (latest, StepOut.silent)
      else (latest, StepOut.silent)

/-- Successive loop iterations over a list of fetch outcomes. -/
def monitorRun (kws : List String) (latest : Option PyVal) :
    List FetchOutcome → Option PyVal × List StepOut
  | [] => (latest, [])
  | f :: fs =>
      let s := monitorStep kws latest f
      let r := monitorRun kws s.1 fs
      (r.1, s.2 :: r.2)

/-- A successful provider response whose nested path holds the given tweet
text and id (the shape `get_tweet_text` / `get_tweet_id` navigate). -/
def mkTweetData (t tid : String) : PyVal :=
  let legacy := PyVal.dict [("full_text", PyVal.str t), ("id_str", PyVal.str tid)]
  let tres := PyVal.dict [("result", PyVal.dict [("legacy", legacy)])]
  let entry := PyVal.dict [("content", PyVal.dict [("itemContent", PyVal.dict [("tweet_results", tres)])])]
  let instr0 := PyVal.dict [("type", PyVal.str "TimelinePinEntry")]
  let instr1 := PyVal.dict [("entries", PyVal.list [entry])]
  let timeline := PyVal.dict [("instructions", PyVal.list [instr0, instr1])]
  PyVal.dict [("result", PyVal.dict [("timeline", timeline)])]

/-- Strict lexicographic order on character lists (Python's `<` on strings,
restricted to the code points compared here). -/
def charListLt : List Char → List Char → Bool
  | [], [] => false
  | [], _ :: _ => true
  | _ :: _, [] => false
  | a :: as, b :: bs => if a < b then true else if b < a then false else charListLt as bs

/-- Strict order on tweet-id strings, used to state "strictly increasing ids". -/
def idLt (a b : String) : Bool :=
  charListLt a.data b.data

/-- The registry key `(target_chat_id, twitter_user_id)` used by `monitor_flags`. -/
abbrev SubKey := Int × String

/-- Lookup of a key's stop event in the registry (`monitor_flags[key]`,
`key in monitor_flags`); stop events are identified by numeric ids. -/
def regLookup (reg : List (SubKey × Nat)) (k : SubKey) : Option Nat :=
  match reg with
  | [] => Option.none
  | (k2, v) :: rest => if k2 = k then some v else regLookup rest k

/-- Python dict assignment `monitor_flags[key] = stop_event`: an existing
binding is replaced in place, a new key is appended in insertion order. -/
def dictInsert (reg : List (SubKey × Nat)) (k : SubKey) (v : Nat) : List (SubKey × Nat) :=
  if reg.any (fun p => decide (p.1 = k)) then
    reg.map (fun p => if p.1 = k then (k, v) else p)
  else
    reg ++ [(k, v)]

/-- The start outcomes named by the specification's front-end interface. -/
inductive StartResult where
  | started
  | conflict
deriving DecidableEq

/-- Registry effect of the start handler `receive_keywords` (lines 158-173):
it unconditionally stores the fresh stop event under the key and replies that
monitoring has started; no code path produces a conflict. -/
def receive_keywords (reg : List (SubKey × Nat)) (k : SubKey) (ev : Nat) :
    List (SubKey × Nat) × StartResult :=
  (dictInsert reg k ev, StartResult.started)

/-- Removal `del monitor_flags[key]` (registry keys are unique, as in a dict). -/
def regRemove (reg : List (SubKey × Nat)) (k : SubKey) : List (SubKey × Nat) :=
  reg.filter (fun p => decide (p.1 ≠ k))

/-- The single-key branch of `receive_stop` (lines 194-201): if the key is
present its event is signaled (returned) and the entry deleted; otherwise the
registry is untouched and no event is signaled ("not found" reply). -/
def receive_stop_one (reg : List (SubKey × Nat)) (k : SubKey) :
    List (SubKey × Nat) × Option Nat :=
  match regLookup reg k with
  | some e => (regRemove reg k, some e)
  | Option.none => (reg, Option.none)

/-- The "all" branch of `receive_stop` (lines 186-193): iterate the key list,
and for every key whose chat component equals the requesting chat, signal its
event, delete the entry and count it.  Returns the remaining registry, the
signaled events in iteration order, and the reported count. -/
def receive_stop_all (reg : List (SubKey × Nat)) (chat : Int) :
    List (SubKey × Nat) × List Nat × Nat :=
  match reg with
  | [] => ([], [], 0)
  | (k, e) :: rest =>
      let r := receive_stop_all rest chat
      if k.1 = chat then (r.1, e :: r.2.1, r.2.2 + 1)
      else ((k, e) :: r.1, r.2.1, r.2.2)

/-- Shutdown timing of the poll loop.  `setAt` is the instant the stop event
is set, `t` the current instant (an iteration top), `fuel` bounds the number
of iterations considered.  The flag is checked only at the top of an
iteration (`while not stop_event.is_set()`); a running iteration executes its
body and then `time.sleep(5)`, which always advances the clock by the full 5
units because a plain sleep does not observe the event. -/
def workerStopTime (setAt t fuel : Nat) : Option Nat :=
  match fuel with
  | 0 => Option.none
  | Nat.succ f => if setAt ≤ t then some t else workerStopTime setAt (t + 5) f

end TweetMonitor

namespace TweetMonitor

/-! ### General lemmas about the embedding -/

lemma charListLt_self : ∀ l : List Char, charListLt l l = false := by
  intro l
  induction l with
  | nil => rfl
  | cons a as ih => simp [charListLt, ih]

lemma ne_of_idLt {a b : String} (h : idLt a b = true) : a ≠ b := by
  intro hab
  subst hab
  rw [idLt, charListLt_self] at h
  exact Bool.false_ne_true h

/-- One loop iteration on a well-shaped payload, written as an explicit
decision tree; this is a definitional unfolding of `monitorStep`. -/
lemma monitorStep_payload_mk (kws : List String) (latest : Option PyVal) (t tid : String) :
    monitorStep kws latest (FetchOutcome.payload (mkTweetData t tid)) =
      (if ((t != "") && (tid != "") &&
          (match latest with
           | Option.none => true
           | some x => !(pyEq (PyVal.str tid) x))) then
        (if kws.isEmpty then
          (some (PyVal.str tid), StepOut.notified (mkMsg t tid))
         else if kwMatch kws t then
          (some (PyVal.str tid), StepOut.notified (mkMsg t tid))
         else (latest, StepOut.silent))
      else (latest, StepOut.silent)) := rfl

/-- With no marker yet, a non-empty item passing the filter is notified and
becomes the marker. -/
lemma monitorStep_notify_none (kws : List String) (t tid : String)
    (ht : t ≠ "") (hi : tid ≠ "") (hk : keywordPass kws t = true) :
    monitorStep kws Option.none (FetchOutcome.payload (mkTweetData t tid)) =
      (some (PyVal.str tid), StepOut.notified (mkMsg t tid)) := by
  rw [monitorStep_payload_mk]
  simp only [bne_iff_ne, ne_eq, ht, hi]
  cases hkw : kws.isEmpty with
  | true => simp [ht, hi]
  | false =>
      rw [keywordPass, hkw] at hk
      simp at hk
      simp [hk, ht, hi]

/-- With a marker differing from the fetched id, a non-empty item passing the
filter is notified and becomes the new marker. -/
lemma monitorStep_notify_some (kws : List String) (x : PyVal) (t tid : String)
    (ht : t ≠ "") (hi : tid ≠ "") (hx : pyEq (PyVal.str tid) x = false)
    (hk : keywordPass kws t = true) :
    monitorStep kws (some x) (FetchOutcome.payload (mkTweetData t tid)) =
      (some (PyVal.str tid), StepOut.notified (mkMsg t tid)) := by
  rw [monitorStep_payload_mk]
  simp only [bne_iff_ne, ne_eq, ht, hi, hx]
  cases hkw : kws.isEmpty with
  | true => simp [ht, hi]
  | false =>
      rw [keywordPass, hkw] at hk
      simp at hk
      simp [hk, ht, hi]

/-- Re-fetching the id recorded in the marker never sends anything. -/
lemma monitorStep_same (kws : List String) (t tid : String) :
    monitorStep kws (some (PyVal.str tid)) (FetchOutcome.payload (mkTweetData t tid)) =
      (some (PyVal.str tid), StepOut.silent) := by
  rw [monitorStep_payload_mk]
  simp [pyEq]

/-- A non-empty keyword list with no match sends nothing and leaves the
marker untouched, whatever the dedup state. -/
lemma monitorStep_kwskip (kws : List String) (latest : Option PyVal) (t tid : String)
    (hne : kws ≠ []) (hm : kwMatch kws t = false) :
    monitorStep kws latest (FetchOutcome.payload (mkTweetData t tid)) =
      (latest, StepOut.silent) := by
  rw [monitorStep_payload_mk]
  have hkw : kws.isEmpty = false := by
    cases kws with
    | nil => exact absurd rfl hne
    | cons a as => rfl
  simp [hkw, hm]

/-- A run over items with chain-increasing ids starting from a marker below
the first id notifies every item once, the marker tracking each id. -/
lemma monitorRun_chain (kws : List String) (items : List (String × String)) :
    ∀ prev : String,
    (∀ p ∈ items, p.1 ≠ "" ∧ p.2 ≠ "") →
    (∀ p ∈ items, keywordPass kws p.1 = true) →
    List.Chain (fun a b : String => idLt a b = true) prev (items.map (fun p => p.2)) →
    monitorRun kws (some (PyVal.str prev))
        (items.map (fun p => FetchOutcome.payload (mkTweetData p.1 p.2))) =
      (items.foldl (fun _ p => some (PyVal.str p.2)) (some (PyVal.str prev)),
       items.map (fun p => StepOut.notified (mkMsg p.1 p.2))) := by
  induction items with
  | nil => intro prev _ _ _; simp [monitorRun]
  | cons p rest ih =>
      intro prev ht hk hch
      obtain ⟨t, tid⟩ := p
      rw [List.map_cons, List.chain_cons] at hch
      obtain ⟨h1, h2⟩ := hch
      have hne : pyEq (PyVal.str tid) (PyVal.str prev) = false := by
        have : tid ≠ prev := fun hh => ne_of_idLt h1 hh.symm
        simp [pyEq, this]
      have hstep := monitorStep_notify_some kws (PyVal.str prev) t tid
        (ht (t, tid) (List.mem_cons_self _ _)).1 (ht (t, tid) (List.mem_cons_self _ _)).2
        hne (hk (t, tid) (List.mem_cons_self _ _))
      simp only [List.map_cons, monitorRun, hstep, List.foldl_cons]
      exact congrArg (fun r => (r.1, StepOut.notified (mkMsg t tid) :: r.2))
        (ih tid (fun q hq => ht q (List.mem_cons_of_mem _ hq))
                (fun q hq => hk q (List.mem_cons_of_mem _ hq)) h2)

lemma regLookup_map_replace (reg : List (SubKey × Nat)) (k : SubKey) (v : Nat)
    (h : reg.any (fun p => decide (p.1 = k)) = true) :
    regLookup (reg.map (fun p => if p.1 = k then (k, v) else p)) k = some v := by
  induction reg with
  | nil => simp at h
  | cons p rest ih =>
      obtain ⟨pk, pv⟩ := p
      by_cases hp : pk = k
      · rw [List.map_cons, if_pos hp, regLookup, if_pos rfl]
      · rw [List.map_cons, if_neg hp, regLookup, if_neg hp]
        apply ih
        simpa [hp] using h

lemma regLookup_append_new (reg : List (SubKey × Nat)) (k : SubKey) (v : Nat)
    (h : reg.any (fun p => decide (p.1 = k)) = false) :
    regLookup (reg ++ [(k, v)]) k = some v := by
  induction reg with
  | nil => simp [regLookup]
  | cons p rest ih =>
      obtain ⟨pk, pv⟩ := p
      simp only [List.any_cons, Bool.or_eq_false_iff, decide_eq_false_iff_not] at h
      rw [List.cons_append, regLookup, if_neg h.1]
      apply ih
      simpa using h.2

/-- After `monitor_flags[key] = stop_event`, the key is bound to the fresh
event, whether or not it was present before. -/
lemma regLookup_dictInsert (reg : List (SubKey × Nat)) (k : SubKey) (v : Nat) :
    regLookup (dictInsert reg k v) k = some v := by
  rw [dictInsert]
  cases hc : reg.any (fun p => decide (p.1 = k)) with
  | true =>
      simp only [hc, if_true]
      exact regLookup_map_replace reg k v hc
  | false =>
      simp only [hc, Bool.false_eq_true, if_false]
      exact regLookup_append_new reg k v hc

lemma regRemove_of_lookup_none (reg : List (SubKey × Nat)) (k : SubKey)
    (h : regLookup reg k = Option.none) : regRemove reg k = reg := by
  induction reg with
  | nil => rfl
  | cons p rest ih =>
      obtain ⟨pk, pv⟩ := p
      rw [regLookup] at h
      by_cases hp : pk = k
      · rw [if_pos hp] at h; exact absurd h (by simp)
      · rw [if_neg hp] at h
        have hd : decide ((pk, pv).1 ≠ k) = true := by simp [hp]
        have htail := ih h
        rw [regRemove] at htail ⊢
        rw [List.filter_cons, hd, if_pos rfl, htail]

lemma dictGet_error_keyError (es : List (String × PyVal)) (k : String) (e : PyErr)
    (h : dictGet es k = Except.error e) : e = PyErr.keyError := by
  induction es with
  | nil => rw [dictGet] at h; cases h; rfl
  | cons q rest ih =>
      obtain ⟨qk, qv⟩ := q
      rw [dictGet] at h
      by_cases hq : qk = k
      · rw [if_pos hq] at h; cases h
      · rw [if_neg hq] at h; exact ih h

lemma catchKI_ne_key (x : Except PyErr PyVal) : catchKI x ≠ Except.error PyErr.keyError := by
  cases x with
  | ok v => simp [catchKI]
  | error e => cases e <;> simp [catchKI]

lemma catchKI_ne_index (x : Except PyErr PyVal) : catchKI x ≠ Except.error PyErr.indexError := by
  cases x with
  | ok v => simp [catchKI]
  | error e => cases e <;> simp [catchKI]

/-- The two extraction helpers walk the same nested prefix, so whenever the
text extraction returns (rather than raising), so does the id extraction. -/
lemma id_ok_of_text_ok (d : PyVal) (tv : PyVal) (h : get_tweet_text d = Except.ok tv) :
    ∃ iv, get_tweet_id d = Except.ok iv := by
  rw [get_tweet_text, tweetField] at h
  rw [get_tweet_id, tweetField]
  cases hleg : legacyPath d with
  | error e =>
      rw [hleg] at h
      cases e with
      | keyError => exact ⟨PyVal.none, rfl⟩
      | indexError => exact ⟨PyVal.none, rfl⟩
      | typeError => exact Except.noConfusion h
  | ok leg =>
      rw [hleg] at h
      cases leg with
      | dict es =>
          have hun : (PyVal.dict es).getKey "id_str" = dictGet es "id_str" := rfl
          cases hg : dictGet es "id_str" with
          | ok v =>
              refine ⟨v, ?_⟩
              show catchKI ((PyVal.dict es).getKey "id_str") = Except.ok v
              rw [hun, hg, catchKI]
          | error e =>
              have he := dictGet_error_keyError es "id_str" e hg
              subst he
              refine ⟨PyVal.none, ?_⟩
              show catchKI ((PyVal.dict es).getKey "id_str") = Except.ok PyVal.none
              rw [hun, hg, catchKI]
      | none => exact Except.noConfusion h
      | bool b => exact Except.noConfusion h
      | num n => exact Except.noConfusion h
      | str s => exact Except.noConfusion h
      | list xs => exact Except.noConfusion h

/-- When extraction is caught (or the path holds a JSON null), the iteration
falls through the line-111 guard: nothing is sent, the marker is unchanged. -/
lemma step_silent_of_text_none (kws : List String) (latest : Option PyVal) (d : PyVal)
    (h : get_tweet_text d = Except.ok PyVal.none) :
    monitorStep kws latest (FetchOutcome.payload d) = (latest, StepOut.silent) := by
  rw [monitorStep]
  cases hd : d.truthy with
  | false => simp [hd]
  | true =>
      obtain ⟨iv, hiv⟩ := id_ok_of_text_ok d PyVal.none h
      simp only [hd, if_true, h, hiv]
      simp [PyVal.truthy]

/-- A `TypeError` escaping the extraction is caught at the loop boundary and
reported as a diagnostic. -/
lemma step_diag_of_text_typeError (kws : List String) (latest : Option PyVal) (d : PyVal)
    (hd : d.truthy = true) (h : get_tweet_text d = Except.error PyErr.typeError) :
    monitorStep kws latest (FetchOutcome.payload d) = (latest, StepOut.diagnostic) := by
  rw [monitorStep]
  simp only [hd, if_true, h]

/-- Any stop time produced by the loop lies at an iteration boundary (a
multiple of the 5-unit sleep), no earlier than the signal and less than one
full sleep after it. -/
lemma workerStopTime_bounds : ∀ (fuel setAt t res : Nat), t % 5 = 0 → t < setAt + 5 →
    workerStopTime setAt t fuel = some res → setAt ≤ res ∧ res % 5 = 0 ∧ res < setAt + 5 := by
  intro fuel
  induction fuel with
  | zero => intro setAt t res _ _ h; rw [workerStopTime] at h; cases h
  | succ f ih =>
      intro setAt t res hmod hlt h
      rw [workerStopTime] at h
      by_cases hle : setAt ≤ t
      · rw [if_pos hle] at h
        cases h
        exact ⟨hle, hmod, hlt⟩
      · rw [if_neg hle] at h
        exact ih setAt (t + 5) res (by omega) (by omega) h

lemma isPrefixB_iff : ∀ (p l : List Char), isPrefixB p l = true ↔ ∃ cs, l = p ++ cs := by
  intro p
  induction p with
  | nil => intro l; simp [isPrefixB]
  | cons a as ih =>
      intro l
      cases l with
      | nil => simp [isPrefixB]
      | cons b bs =>
          rw [isPrefixB]
          simp only [Bool.and_eq_true, beq_iff_eq, List.cons_append, List.cons_eq_cons, ih]
          constructor
          · rintro ⟨hab, cs, hcs⟩; exact ⟨cs, hab.symm, hcs⟩
          · rintro ⟨cs, hab, hcs⟩; exact ⟨hab.symm, cs, hcs⟩

lemma replicate_fetchError (kws : List String) (latest : Option PyVal) :
    ∀ n : Nat, monitorRun kws latest (List.replicate n FetchOutcome.fetchError) =
      (latest, List.replicate n StepOut.silent) := by
  intro n
  induction n with
  | zero => rfl
  | succ m ih => simp only [List.replicate_succ, monitorRun, monitorStep, ih]

end TweetMonitor

namespace TweetMonitor

/-! ### Claims -/

/-- C1 counterexample: a second start for the key `(5, "nasa")` while the
registry still holds the first subscription's stop event `0` is not rejected —
the handler reports a plain start and the registry entry is replaced by the
new stop event `1`, so the first subscription's handle is dropped
un-signaled rather than left untouched. -/
theorem duplicate_start_overwrites_cx :
    receive_keywords [((5, "nasa"), 0)] (5, "nasa") 1 =
      ([((5, "nasa"), 1)], StartResult.started) := rfl

/-- C1 (amended): a second start request with the same key is not rejected as
a conflict: the handler always replies `started` and rebinds the key to the
new stop event, overwriting the previous registry entry. -/
theorem second_start_not_conflict (reg : List (SubKey × Nat)) (k : SubKey) (ev : Nat) :
    (receive_keywords reg k ev).2 = StartResult.started ∧
    regLookup (receive_keywords reg k ev).1 k = some ev :=
  ⟨rfl, regLookup_dictInsert reg k ev⟩

/-- C2 counterexample: in a poll iteration whose fetch fails (the client
logged the error and returned no data), the worker delivers nothing at all
through the Notification Sink — in particular no diagnostic message — and
merely proceeds to the sleep. -/
theorem fetch_error_no_diagnostic_cx :
    monitorStep ["rocket"] Option.none FetchOutcome.fetchError =
      (Option.none, StepOut.silent) := rfl

/-- C2 (amended): a fetch error is never fatal and never touches the dedup
marker — the worker silently sleeps and retries, any number of times — but
the requester is not informed: no diagnostic is delivered on a fetch error
(the diagnostic path exists only for unexpected exceptions inside the loop). -/
theorem fetch_error_silent_retry :
    (∀ (kws : List String) (latest : Option PyVal),
        monitorStep kws latest FetchOutcome.fetchError = (latest, StepOut.silent)) ∧
    (∀ (kws : List String) (latest : Option PyVal) (n : Nat),
        monitorRun kws latest (List.replicate n FetchOutcome.fetchError) =
          (latest, List.replicate n StepOut.silent)) :=
  ⟨fun _ _ => rfl, fun kws latest n => replicate_fetchError kws latest n⟩

/-- C3: over any sequence of non-empty fetched items with strictly increasing
ids that pass the keyword filter, every item is notified exactly once (the
output of the run is exactly one notification per item, in order) and
`latest_tweet_id` ends at the last id; and re-fetching the id currently held
in the marker never produces a second notification. -/
theorem increasing_ids_notify_each_once (kws : List String) (items : List (String × String))
    (ht : ∀ p ∈ items, p.1 ≠ "" ∧ p.2 ≠ "")
    (hk : ∀ p ∈ items, keywordPass kws p.1 = true)
    (hinc : List.Chain' (fun a b : String => idLt a b = true) (items.map (fun p => p.2))) :
    monitorRun kws Option.none (items.map (fun p => FetchOutcome.payload (mkTweetData p.1 p.2))) =
      (items.foldl (fun _ p => some (PyVal.str p.2)) Option.none,
       items.map (fun p => StepOut.notified (mkMsg p.1 p.2))) ∧
    (∀ (kws2 : List String) (t tid : String),
        monitorStep kws2 (some (PyVal.str tid)) (FetchOutcome.payload (mkTweetData t tid)) =
          (some (PyVal.str tid), StepOut.silent)) := by
  constructor
  · cases items with
    | nil => simp [monitorRun]
    | cons p rest =>
        obtain ⟨t, tid⟩ := p
        rw [List.map_cons] at hinc
        have hch : List.Chain (fun a b : String => idLt a b = true) tid
            (rest.map (fun p => p.2)) := hinc
        have hstep := monitorStep_notify_none kws t tid
          (ht (t, tid) (List.mem_cons_self _ _)).1 (ht (t, tid) (List.mem_cons_self _ _)).2
          (hk (t, tid) (List.mem_cons_self _ _))
        simp only [List.map_cons, monitorRun, hstep, List.foldl_cons]
        exact congrArg (fun r => (r.1, StepOut.notified (mkMsg t tid) :: r.2))
          (monitorRun_chain kws rest tid (fun q hq => ht q (List.mem_cons_of_mem _ hq))
            (fun q hq => hk q (List.mem_cons_of_mem _ hq)) hch)
  · intro kws2 t tid
    exact monitorStep_same kws2 t tid

/-- C3 witness: two items with increasing ids, no keyword filter — both are
notified once each and the marker ends at the second id. -/
theorem increasing_ids_notify_each_once_w :
    monitorRun [] Option.none
        [FetchOutcome.payload (mkTweetData "alpha" "1"),
         FetchOutcome.payload (mkTweetData "beta" "2")] =
      (some (PyVal.str "2"),
       [StepOut.notified (mkMsg "alpha" "1"), StepOut.notified (mkMsg "beta" "2")]) :=
  (increasing_ids_notify_each_once [] [("alpha", "1"), ("beta", "2")]
    (by decide) (by decide) (List.Chain.cons (by decide) List.Chain.nil)).1

/-- C4: a non-empty keyword list none of whose entries occurs
case-insensitively in the item's text makes the iteration skip, leaving the
marker untouched; "Big Launch Today" against `{"launch"}` is notified while
"Nothing interesting" (arriving with a genuinely new id) is skipped with the
marker unchanged; and the empty keyword list matches every item. -/
theorem keyword_filter_skip_behavior :
    (∀ (kws : List String) (latest : Option PyVal) (t tid : String),
        kws ≠ [] → kwMatch kws t = false →
        monitorStep kws latest (FetchOutcome.payload (mkTweetData t tid)) =
          (latest, StepOut.silent)) ∧
    monitorStep ["launch"] Option.none
        (FetchOutcome.payload (mkTweetData "Big Launch Today" "7")) =
      (some (PyVal.str "7"), StepOut.notified (mkMsg "Big Launch Today" "7")) ∧
    monitorStep ["launch"] (some (PyVal.str "7"))
        (FetchOutcome.payload (mkTweetData "Nothing interesting" "8")) =
      (some (PyVal.str "7"), StepOut.silent) ∧
    (∀ t : String, keywordPass [] t = true) ∧
    (∀ t tid : String, t ≠ "" → tid ≠ "" →
        monitorStep [] Option.none (FetchOutcome.payload (mkTweetData t tid)) =
          (some (PyVal.str tid), StepOut.notified (mkMsg t tid))) :=
  ⟨monitorStep_kwskip, rfl, rfl, fun _ => rfl,
   fun t tid ht hi => monitorStep_notify_none [] t tid ht hi rfl⟩

/-- C4 witness: the keyword-skip branch applied at a concrete non-matching
item with a new id: the marker stays at `"9"` and nothing is sent. -/
theorem keyword_filter_skip_behavior_w :
    monitorStep ["launch"] (some (PyVal.str "9"))
        (FetchOutcome.payload (mkTweetData "routine status report" "10")) =
      (some (PyVal.str "9"), StepOut.silent) ∧
    monitorStep [] Option.none (FetchOutcome.payload (mkTweetData "hello" "11")) =
      (some (PyVal.str "11"), StepOut.notified (mkMsg "hello" "11")) :=
  ⟨keyword_filter_skip_behavior.1 ["launch"] (some (PyVal.str "9"))
      "routine status report" "10" (by decide) (by decide),
   keyword_filter_skip_behavior.2.2.2.2 "hello" "11" (by decide) (by decide)⟩

/-- C5 counterexample: the flag is not "text starts with the two-character
token": the text "RTs #x" does start with the two-character token "RT", yet
the retransmission flag computed by the code is false, because the code tests
the three-character prefix "RT " (token plus space). -/
theorem retweet_two_char_token_cx :
    startswith "RT" "RTs #x" = true ∧ retweetFlag "RTs #x" = false := by decide

/-- C5 (amended): the retransmission flag is true exactly when the text
starts with the three-character prefix "RT " — the two-character token
followed by a space — and the tag list is every hash-plus-word-characters
match in order with duplicates kept; on the example text the flag is true and
the tags are exactly ["#space", "#news"] in order. -/
theorem retweet_flag_and_hashtags :
    monitorStep [] Option.none
        (FetchOutcome.payload (mkTweetData "RT check this out #space #news" "42")) =
      (some (PyVal.str "42"),
       StepOut.notified
         { tweetId := PyVal.str "42", retweet := true,
           hashtags := ["#space", "#news"],
           text := "RT check this out #space #news" }) ∧
    (∀ t : String, retweetFlag t = true ↔ ∃ cs, t.data = 'R' :: 'T' :: ' ' :: cs) := by
  constructor
  · rfl
  · intro t
    have h : "RT ".data = ['R', 'T', ' '] := rfl
    rw [retweetFlag, startswith, h, isPrefixB_iff]
    constructor
    · rintro ⟨cs, hcs⟩; exact ⟨cs, hcs⟩
    · rintro ⟨cs, hcs⟩; exact ⟨cs, hcs⟩

/-- C6 counterexample: on a response whose top level is a string instead of
the expected object, the extraction raises (`TypeError`, not caught by the
`except (KeyError, IndexError)` clause), and the worker handles the iteration
as a failure — it sends the caught-exception diagnostic — rather than
treating it as "nothing new". -/
theorem extraction_type_mismatch_raises_cx :
    get_tweet_text (PyVal.str "unexpected format") = Except.error PyErr.typeError ∧
    monitorStep [] Option.none (FetchOutcome.payload (PyVal.str "unexpected format")) =
      (Option.none, StepOut.diagnostic) := ⟨rfl, rfl⟩

/-- C6 (amended): extraction never raises `KeyError` or `IndexError` — a
missing key or out-of-range index along the nested path is caught and
returned as "no item", which the polling loop treats as nothing new (nothing
sent, marker unchanged) — but a type mismatch along the path raises a
`TypeError` that escapes extraction and is handled by the loop as a worker
fault (diagnostic sent), not as "no item". -/
theorem extraction_catches_key_index_errors :
    (∀ d : PyVal,
        get_tweet_text d ≠ Except.error PyErr.keyError ∧
        get_tweet_text d ≠ Except.error PyErr.indexError ∧
        get_tweet_id d ≠ Except.error PyErr.keyError ∧
        get_tweet_id d ≠ Except.error PyErr.indexError) ∧
    (∀ (kws : List String) (latest : Option PyVal) (d : PyVal),
        get_tweet_text d = Except.ok PyVal.none →
        monitorStep kws latest (FetchOutcome.payload d) = (latest, StepOut.silent)) ∧
    (∀ (kws : List String) (latest : Option PyVal) (d : PyVal),
        d.truthy = true → get_tweet_text d = Except.error PyErr.typeError →
        monitorStep kws latest (FetchOutcome.payload d) = (latest, StepOut.diagnostic)) :=
  ⟨fun _ => ⟨catchKI_ne_key _, catchKI_ne_index _, catchKI_ne_key _, catchKI_ne_index _⟩,
   step_silent_of_text_none, step_diag_of_text_typeError⟩

/-- C6 witness: a response missing the path below `result` is treated as
nothing new; a response whose top level is a list is treated as a fault. -/
theorem extraction_catches_key_index_errors_w :
    monitorStep ["a"] Option.none
        (FetchOutcome.payload (PyVal.dict [("result", PyVal.dict [])])) =
      (Option.none, StepOut.silent) ∧
    monitorStep ["a"] Option.none (FetchOutcome.payload (PyVal.list [PyVal.num 1])) =
      (Option.none, StepOut.diagnostic) :=
  ⟨extraction_catches_key_index_errors.2.1 ["a"] Option.none
      (PyVal.dict [("result", PyVal.dict [])]) rfl,
   extraction_catches_key_index_errors.2.2 ["a"] Option.none
      (PyVal.list [PyVal.num 1]) rfl rfl⟩

/-- C7 counterexample: the stop event is set at time 1, while the worker is
inside the sleep spanning times 0 to 5; the worker nevertheless stops only at
time 5, after completing the full 5-unit sleep, because `time.sleep(5)` is
not interruptible by the `threading.Event` — the flag is observed only at the
top of the next iteration. -/
theorem sleep_not_interruptible_cx :
    workerStopTime 1 0 3 = some 5 ∧ ¬ (5 : Nat) < 5 := ⟨rfl, by omega⟩

/-- C7 (amended): cancellation signaled during the fixed 5-unit sleep takes
effect only at the next iteration top: whenever the loop stops, it stops at
an iteration boundary (a multiple of 5), never before the signal and within
one full sleep interval after it — bounded shutdown latency, but the sleep
itself always completes. -/
theorem cancellation_latency_bound (setAt fuel res : Nat)
    (h : workerStopTime setAt 0 fuel = some res) :
    setAt ≤ res ∧ res % 5 = 0 ∧ res < setAt + 5 :=
  workerStopTime_bounds fuel setAt 0 res rfl (by omega) h

/-- C7 witness: the signal at time 1 leads to a stop at time 5, which indeed
lies at an iteration boundary within one sleep interval of the signal. -/
theorem cancellation_latency_bound_w :
    workerStopTime 1 0 3 = some 5 ∧ (1 ≤ 5 ∧ 5 % 5 = 0 ∧ 5 < 1 + 5) :=
  ⟨rfl, cancellation_latency_bound 1 3 5 rfl⟩

/-- C8: the stop-all branch signals and removes exactly the entries whose
key's chat component equals the requesting chat — the remaining registry is
the sublist of entries for other chats, unchanged and in order — and the
reported count equals the number of entries removed. -/
theorem stop_all_filters_by_chat (reg : List (SubKey × Nat)) (chat : Int) :
    (receive_stop_all reg chat).1 = reg.filter (fun p => decide (p.1.1 ≠ chat)) ∧
    (receive_stop_all reg chat).2.1 =
      (reg.filter (fun p => decide (p.1.1 = chat))).map (fun p => p.2) ∧
    (receive_stop_all reg chat).2.2 =
      (reg.filter (fun p => decide (p.1.1 = chat))).length := by
  induction reg with
  | nil => exact ⟨rfl, rfl, rfl⟩
  | cons p rest ih =>
      obtain ⟨k, e⟩ := p
      by_cases hk : k.1 = chat
      · simp [receive_stop_all, hk, List.filter_cons, ih.1, ih.2.1, ih.2.2]
      · simp [receive_stop_all, hk, List.filter_cons, ih.1, ih.2.1, ih.2.2]

/-- C9: stopping a key that is not registered reports "not found" and leaves
the registry unchanged (and signals nothing); stopping a registered key
signals exactly that entry's stop event and removes the entry, keeping every
other entry. -/
theorem stop_single_found_and_not_found (reg : List (SubKey × Nat)) (k : SubKey) :
    (regLookup reg k = Option.none → receive_stop_one reg k = (reg, Option.none)) ∧
    (∀ e, regLookup reg k = some e →
        (receive_stop_one reg k).2 = some e ∧
        (receive_stop_one reg k).1 = reg.filter (fun p => decide (p.1 ≠ k))) := by
  constructor
  · intro h
    unfold receive_stop_one
    rw [h]
  · intro e h
    unfold receive_stop_one
    rw [h]
    exact ⟨rfl, rfl⟩

/-- C9 witness: in a registry holding one subscription for chat 3 and user
"nasa" with stop event 7, stopping "spacex" is a no-op that signals nothing,
while stopping "nasa" signals event 7 and empties the registry. -/
theorem stop_single_found_and_not_found_w :
    receive_stop_one [((3, "nasa"), 7)] (3, "spacex") = ([((3, "nasa"), 7)], Option.none) ∧
    ((receive_stop_one [((3, "nasa"), 7)] (3, "nasa")).2 = some 7 ∧
     (receive_stop_one [((3, "nasa"), 7)] (3, "nasa")).1 = []) :=
  ⟨(stop_single_found_and_not_found [((3, "nasa"), 7)] (3, "spacex")).1 (by decide),
   (stop_single_found_and_not_found [((3, "nasa"), 7)] (3, "nasa")).2 7 (by decide)⟩

/-- C10: on the first successful fetch after spawn (`latest_tweet_id` still
`None`), any non-empty item that passes the keyword filter is notified — the
pre-existing most recent item is reported even though it predates the
subscription — and the marker becomes its id. -/
theorem first_fetch_notifies (kws : List String) (t tid : String)
    (ht : t ≠ "") (hi : tid ≠ "") (hk : keywordPass kws t = true) :
    monitorStep kws Option.none (FetchOutcome.payload (mkTweetData t tid)) =
      (some (PyVal.str tid), StepOut.notified (mkMsg t tid)) :=
  monitorStep_notify_none kws t tid ht hi hk

/-- C10 witness: a worker spawned with keyword "news" immediately notifies
the already-existing matching item with id 37 and records that id. -/
theorem first_fetch_notifies_w :
    monitorStep ["news"] Option.none
        (FetchOutcome.payload (mkTweetData "old news item" "37")) =
      (some (PyVal.str "37"), StepOut.notified (mkMsg "old news item" "37")) :=
  first_fetch_notifies ["news"] "old news item" "37" (by decide) (by decide) (by decide)

end TweetMonitor
